import Mathlib

/-!
Verification development for the Cloudflare challenge resolution engine of
the Upwork-Job-Scraper repository (`camoufox_captcha` package).

The Python source is shallowly embedded: every external collaborator call
(selector query, load-state wait, frame resolution, page creation, visibility
check, click, inner-text probe) is answered by an explicit environment
record, indexed by how many calls of that kind have already been made, so
that the embedded functions are executable and every control-flow decision
of the source is preserved.  Exceptions are modelled with `Except`; the
Python distinction between Playwright errors and other exceptions is kept in
the error type.  Machine integers that the source treats as possibly
negative (`solve_attempts`, waiter `attempts`, click attempts) are `Int` and
are turned into iteration counts exactly as Python `range` does
(`Int.toNat`, negative becomes zero).
-/

/-- Exceptions observable in the embedded code.  `pw` is a Playwright error
carrying its message (the source inspects messages with substring tests),
`nonPw` is any other exception, `pageCreate` is the exception re-raised when
creating a replacement page after a crash fails. -/
inductive PyErr
  | pw (msg : String)
  | nonPw (msg : String)
  | pageCreate
deriving DecidableEq, Repr

/-- Python substring test `needle in hay`, on lists of characters: does
`needle` occur contiguously inside `hay`? -/
def listContainsSub : List Char → List Char → Bool
  | needle, [] => needle.isEmpty
  | needle, c :: cs => leadMatch needle (c :: cs) || listContainsSub needle cs
where
  /-- does the first list start the second list? -/
  leadMatch : List Char → List Char → Bool
    | [], _ => true
    | _ :: _, [] => false
    | a :: as, b :: bs => a == b && leadMatch as bs

/-- Python substring test `needle in hay` on strings. -/
def strContains (hay needle : String) : Bool :=
  listContainsSub needle.data hay.data

/-! ## `solve_captcha` (camoufox_captcha/__init__.py)

The public dispatcher.  It validates `captcha_type`, normalizes a falsy
`challenge_type` (empty string / None) to `"interstitial"`, rejects any
other value outside the supported set with a `ValueError`, validates
`method`, and only then dispatches to `solve_cloudflare_by_click`.  The
embedding returns `.ok ct` for "dispatched to the solver with challenge
type `ct`" (no detection, location or click has happened at that point) and
`.error` for a raised `ValueError`. -/

inductive CaptchaErr
  | badChallengeType (s : String)
  | badMethod (m : String)
  | badCaptchaType (s : String)
deriving DecidableEq, Repr

def solve_captcha (captcha_type : String) (challenge_type : String)
    (method : Option String) : Except CaptchaErr String :=
  if captcha_type == "cloudflare" then
    -- `if not challenge_type: challenge_type = 'interstitial'`
    let ct := if challenge_type.isEmpty then "interstitial" else challenge_type
    if ct != "turnstile" && ct != "interstitial" then
      .error (.badChallengeType ct)
    else
      match method with
      | none => .ok ct
      | some m => if m == "click" then .ok ct else .error (.badMethod m)
  else
    .error (.badCaptchaType captcha_type)

/-! ## Shadow-DOM scan (camoufox_captcha/common/shadow_root.py)

`search_shadow_root_elements` collects the shadow roots of the queryable
(`get_shadow_roots`, which may itself raise) and runs one querySelector per
root; the whole loop is wrapped in a single try/except, so an exception at
any point returns the elements accumulated so far.  `search_shadow_root_iframes`
runs the element scan with selector `"iframe"`, reads each element's `src`
property, keeps matches of the substring filter, resolves the content frame
and appends it; a truthy detached frame is skipped, but a `None` content
frame is appended as-is (the guard `cf_iframe and cf_iframe.is_detached()`
does not filter `None`).  Elements, shadow roots and frames are identified
by natural numbers; the environment answers the primitive operations. -/

structure SEnv where
  /-- result of `get_shadow_roots` on the queryable (the JS evaluation can raise) -/
  shadowRoots : Except PyErr (List Nat)
  /-- result of `shadow.querySelector(selector)` inside one shadow root: no match,
  a matching element id, or a raised error -/
  queryRoot : Nat → String → Except PyErr (Option Nat)
  /-- result of `iframe_element.get_property('src')` plus `json_value()` -/
  srcOf : Nat → Except PyErr String
  /-- result of `iframe_element.content_frame()`: `none` when no content frame exists -/
  contentFrameOf : Nat → Except PyErr (Option Nat)
  /-- result of `frame.is_detached()` -/
  frameDetached : Nat → Bool

/-- The per-root loop of `search_shadow_root_elements`: on a raised error the
accumulated list is returned (the try/except wraps the whole loop, so the
failing root AND all later roots are abandoned). -/
def sseGo (env : SEnv) (sel : String) : List Nat → List Nat → List Nat
  | [], acc => acc
  | r :: rs, acc =>
    match env.queryRoot r sel with
    | .error _ => acc
    | .ok none => sseGo env sel rs acc
    | .ok (some e) => sseGo env sel rs (acc ++ [e])

def search_shadow_root_elements (env : SEnv) (sel : String) : List Nat :=
  match env.shadowRoots with
  | .error _ => []
  | .ok roots => sseGo env sel roots []

/-- The per-element loop of `search_shadow_root_iframes`.  Result entries are
`Option Nat`: `some f` is a resolved content frame, `none` records that the
source appended Python `None` when `content_frame()` resolved to nothing. -/
def ssiGo (env : SEnv) (filter : String) :
    List Nat → List (Option Nat) → List (Option Nat)
  | [], acc => acc
  | e :: es, acc =>
    match env.srcOf e with
    | .error _ => acc
    | .ok src =>
      if strContains src filter then
        match env.contentFrameOf e with
        | .error _ => acc
        | .ok (some f) =>
          if env.frameDetached f then ssiGo env filter es acc
          else ssiGo env filter es (acc ++ [some f])
        | .ok none => ssiGo env filter es (acc ++ [none])
      else ssiGo env filter es acc

def search_shadow_root_iframes (env : SEnv) (filter : String) :
    List (Option Nat) :=
  ssiGo env filter (search_shadow_root_elements env "iframe") []

/-! ## `safe_query` (cloudflare/utils/detection.py)

`for attempt in range(retries): try: wait_for_load_state; return
query_selector except PlaywrightError as e: if 'Execution context was
destroyed' in str(e) and attempt < retries - 1: sleep(delay); continue;
raise`.  Falling off the loop (retries = 0) returns Python `None`.  The
environment answers the k-th `wait_for_load_state` and the k-th
`query_selector`; the trace records the operations and sleeps in order. -/

inductive SqEv
  | waitL
  | query
  | sleepE (n : Nat)
deriving DecidableEq, Repr

structure QEnv where
  waitLoadQ : Nat → Except PyErr Unit
  querySel : Nat → Except PyErr (Option Nat)

/-- Only a Playwright error whose message contains the marker is retried:
`except PlaywrightError` does not catch other exceptions, and a different
message fails the substring test. -/
def isEcdErr : PyErr → Bool
  | .pw msg => strContains msg "Execution context was destroyed"
  | _ => false

/-- One loop iteration: the load-state wait, then the query (both inside the
try). -/
def sqAttempt (env : QEnv) (k : Nat) :
    Except PyErr (Option Nat) × List SqEv :=
  match env.waitLoadQ k with
  | .error e => (.error e, [.waitL])
  | .ok _ =>
    match env.querySel k with
    | .error e => (.error e, [.waitL, .query])
    | .ok v => (.ok v, [.waitL, .query])

/-- The retry loop with `remaining` iterations left and `k` calls already
made.  `attempt < retries - 1` holds exactly when at least one more
iteration remains after this one. -/
def sqGo (env : QEnv) (delay : Nat) : Nat → Nat →
    Except PyErr (Option Nat) × List SqEv
  | 0, _ => (.ok none, [])
  | r + 1, k =>
    match sqAttempt env k with
    | (.ok v, evs) => (.ok v, evs)
    | (.error e, evs) =>
      if isEcdErr e && decide (1 ≤ r) then
        match sqGo env delay r (k + 1) with
        | (res, evs2) => (res, evs ++ [.sleepE delay] ++ evs2)
      else (.error e, evs)

def safe_query (env : QEnv) (retries : Nat := 3) (delay : Nat := 2) :
    Except PyErr (Option Nat) × List SqEv :=
  sqGo env delay retries 0

/-! ## `get_ready_checkbox` (cloudflare/utils/dom_helpers.py)

Per round: an inner try/except around each iframe (`is_detached` plus the
shadow checkbox search — a failure skips only that iframe), then a
visibility filter over all collected pairs (a raised `is_visible` aborts the
round via the outer try/except), then either return the first visible pair
or sleep and go to the next round.  Any exception inside the round is
caught by the outer try/except and the round counts as "no checkbox".
`attempts <= 0` is normalized to one round.  The function can only return a
value or `none`; it never raises.  The environment is indexed by the round
number because the DOM is re-polled each round. -/

structure WEnv where
  /-- result of `iframe.is_detached()` in round r for iframe f (raises e.g. on `None`) -/
  isDetachedW : Nat → Nat → Except PyErr Bool
  /-- result of the checkbox-selector shadow scan inside iframe f in round r -/
  searchBoxes : Nat → Nat → Except PyErr (List Nat)
  /-- result of `checkbox.is_visible()` in round r for checkbox c -/
  isVisibleW : Nat → Nat → Except PyErr Bool

/-- The inner per-iframe collection loop; a raised error skips that iframe
only. -/
def grcInner (env : WEnv) (r : Nat) :
    List Nat → List (Nat × Nat) → List (Nat × Nat)
  | [], acc => acc
  | f :: fs, acc =>
    match env.isDetachedW r f with
    | .error _ => grcInner env r fs acc
    | .ok true => grcInner env r fs acc
    | .ok false =>
      match env.searchBoxes r f with
      | .error _ => grcInner env r fs acc
      | .ok boxes => grcInner env r fs (acc ++ boxes.map (fun b => (f, b)))

/-- The visibility filter; a raised `is_visible` propagates to the outer
try/except of the round. -/
def grcVisible (env : WEnv) (r : Nat) :
    List (Nat × Nat) → Except PyErr (List (Nat × Nat))
  | [] => .ok []
  | (f, c) :: rest =>
    match env.isVisibleW r c with
    | .error e => .error e
    | .ok true =>
      match grcVisible env r rest with
      | .error e => .error e
      | .ok vs => .ok ((f, c) :: vs)
    | .ok false => grcVisible env r rest

/-- One polling round: collect, filter, return the first visible pair if
any. -/
def grcRound (env : WEnv) (iframes : List Nat) (r : Nat) :
    Except PyErr (Option (Nat × Nat)) :=
  match grcVisible env r (grcInner env r iframes []) with
  | .error e => .error e
  | .ok vis => .ok vis.head?

/-- Python `if attempts <= 0: attempts = 1`, then `range(attempts)`. -/
def normAttempts (attempts : Int) : Nat :=
  if attempts ≤ 0 then 1 else attempts.toNat

/-- The round loop; the second component counts the rounds executed.  A
round raising an error is caught and treated exactly like a round that
found nothing. -/
def grcLoop (env : WEnv) (iframes : List Nat) :
    Nat → Nat → Option (Nat × Nat) × Nat
  | 0, _ => (none, 0)
  | k + 1, r =>
    match grcRound env iframes r with
    | .ok (some p) => (some p, 1)
    | _ =>
      match grcLoop env iframes k (r + 1) with
      | (res, c) => (res, c + 1)

/-- The waiter.  `delay` only governs the sleep between rounds in the
source, which has no further observable effect here. -/
def get_ready_checkbox (env : WEnv) (iframes : List Nat) (delay : Nat)
    (attempts : Int) : Option (Nat × Nat) × Nat :=
  grcLoop env iframes (normAttempts attempts) 0

/-! ## `solve_cloudflare_by_click` (cloudflare/solve_by_click.py)

The resolution orchestrator.  Collaborator calls are answered by an
environment indexed per call kind by how many calls of that kind have been
made so far; the threaded state `St` carries the active queryable (a page
id, replaced after crash recovery), those per-kind counters, the total
seconds slept by the orchestrator itself, and a chronological trace of the
operations issued together with the queryable each one targeted.

Faithfulness notes, from the source:
* the body-text debug probe (`queryable.locator('body').inner_text()`) runs
  only when debug logging is enabled; only `TargetClosedError` is caught
  there, and on it `browser_context.new_page()` is called — its failure is
  re-raised;
* `wait_for_load_state` catches `PlaywrightTimeoutError` and then the
  general Playwright error class (imported as `CrashedError`), so every
  outcome of that call lets the attempt continue with the same queryable;
* the verification step has separate `turnstile` / `interstitial` branches
  in the source that both run the same challenge detection;
* `solve_click_delay` is accepted and documented but never read in the
  body;
* after the outer loop the source sleeps 2 seconds and returns False. -/

/-- Outcome of a body-text debug probe. -/
inductive InnerTextR
  | okTxt
  | targetClosed
  | errTxt (e : PyErr)
deriving DecidableEq, Repr

/-- Outcome of `wait_for_load_state('domcontentloaded', timeout=10000)`:
reached, timed out (caught, logged), or raised a Playwright error such as a
crash (caught, logged). -/
inductive WaitR
  | okWait
  | timeoutW
  | crashed
deriving DecidableEq, Repr

/-- One traced operation of the orchestrator, with the queryable id it was
issued against where relevant. -/
inductive Ev
  | sleep (secs : Nat)
  | probe (q : Nat) (r : InnerTextR)
  | newPage (fresh : Option Nat)
  | detectChallenge (q : Nat)
  | expectedQ (q : Nat)
  | waitLoad (q : Nat) (r : WaitR)
  | locator (q : Nat)
  | waiterCall
  | clickTry (ok : Bool)
deriving DecidableEq, Repr

structure CfEnv where
  debugEnabled : Bool
  /-- k-th body-text probe outcome -/
  innerText : Nat → InnerTextR
  /-- k-th `browser_context.new_page()`: fresh page id, or `none` for a
  raised creation failure -/
  newPage : Nat → Option Nat
  /-- k-th `detect_cloudflare_challenge` result (it can raise: `safe_query`
  re-raises non-transient errors) -/
  detect : Nat → Except PyErr Bool
  /-- k-th expected-content `query_selector` result (`true` = element
  found); only consulted when a truthy selector was supplied -/
  expected : Nat → Except PyErr Bool
  /-- k-th `wait_for_load_state` outcome -/
  waitLoadR : Nat → WaitR
  /-- k-th `search_shadow_root_iframes` result (frame ids) -/
  cfIframes : Nat → List Nat
  /-- k-th `get_ready_checkbox` result -/
  waiter : Nat → Option (Nat × Nat)
  /-- k-th `checkbox.click()`: `true` = clicked, `false` = raised (caught
  by the click retry loop) -/
  click : Nat → Bool

structure St where
  q : Nat
  probes : Nat
  newPages : Nat
  detects : Nat
  expecteds : Nat
  waits : Nat
  locs : Nat
  waiters : Nat
  clicks : Nat
  sleepTotal : Nat
  trace : List Ev
deriving DecidableEq, Repr

def St.init (q : Nat) : St :=
  { q := q, probes := 0, newPages := 0, detects := 0, expecteds := 0,
    waits := 0, locs := 0, waiters := 0, clicks := 0, sleepTotal := 0,
    trace := [] }

def sleepRec (n : Nat) (s : St) : St :=
  { s with sleepTotal := s.sleepTotal + n, trace := s.trace ++ [.sleep n] }

/-- The debug body-text probe block: when debug logging is enabled, read
the body text; on `TargetClosedError`, create a new page and make it the
active queryable (a creation failure is re-raised); any other probe
exception propagates. -/
def probeBlock (env : CfEnv) (s : St) : Except PyErr St :=
  if env.debugEnabled then
    match env.innerText s.probes with
    | .okTxt =>
      .ok { s with probes := s.probes + 1,
                   trace := s.trace ++ [.probe s.q .okTxt] }
    | .targetClosed =>
      let s1 : St := { s with probes := s.probes + 1,
                              trace := s.trace ++ [Ev.probe s.q .targetClosed] }
      match env.newPage s1.newPages with
      | some q1 =>
        .ok { s1 with q := q1, newPages := s1.newPages + 1,
                      trace := s1.trace ++ [Ev.newPage (some q1)] }
      | none => .error .pageCreate
    | .errTxt e => .error e
  else
    .ok s

/-- the call `detect_cloudflare_challenge(queryable, challenge_type)` at the
orchestrator boundary (an uncaught error propagates). -/
def detectRec (env : CfEnv) (s : St) : Except PyErr (Bool × St) :=
  match env.detect s.detects with
  | .error e => .error e
  | .ok b =>
    .ok (b, { s with detects := s.detects + 1,
                     trace := s.trace ++ [.detectChallenge s.q] })

/-- Python falsiness of the optional selector argument: `None` or the empty
string. -/
def isFalsyStr : Option String → Bool
  | none => true
  | some s => s.isEmpty

/-- the call `detect_expected_content(queryable, selector)`: a falsy selector
returns False without any query; otherwise one non-retried
`query_selector`, whose error propagates. -/
def expectedRec (env : CfEnv) (sel : Option String) (s : St) :
    Except PyErr (Bool × St) :=
  if isFalsyStr sel then .ok (false, s)
  else
    match env.expected s.expecteds with
    | .error e => .error e
    | .ok b =>
      .ok (b, { s with expecteds := s.expecteds + 1,
                       trace := s.trace ++ [.expectedQ s.q] })

/-- The load-state wait: every outcome (reached / timeout / crash) is
caught, so the attempt always continues, with the same queryable. -/
def waitLoadRec (env : CfEnv) (s : St) : St :=
  { s with waits := s.waits + 1,
           trace := s.trace ++ [.waitLoad s.q (env.waitLoadR s.waits)] }

/-- The iframe locator call. -/
def locRec (env : CfEnv) (s : St) : List Nat × St :=
  (env.cfIframes s.locs,
   { s with locs := s.locs + 1, trace := s.trace ++ [.locator s.q] })

/-- The checkbox readiness waiter call. -/
def waiterRec (env : CfEnv) (s : St) : Option (Nat × Nat) × St :=
  (env.waiter s.waiters,
   { s with waiters := s.waiters + 1, trace := s.trace ++ [.waiterCall] })

/-- The click retry loop (`for ... else`): at most `fuel` click calls, any
raised click exception is caught and retried immediately; `false` means
every sub-attempt raised, which makes the outer attempt continue. -/
def clickLoop (env : CfEnv) : Nat → St → Bool × St
  | 0, s => (false, s)
  | fuel + 1, s =>
    let r := env.click s.clicks
    let s1 := { s with clicks := s.clicks + 1,
                       trace := s.trace ++ [.clickTry r] }
    if r then (true, s1) else clickLoop env fuel s1

/-- Outcome of one outer attempt body. -/
inductive AttemptOut
  | solved (s : St)
  | tryNext (s : St)
  | raised (e : PyErr)
deriving Repr

/-- The body of one outer attempt, exactly in source order: debug probe;
challenge detection; expected-content detection; immediate success when the
challenge is absent or the expected content is present (after one more
debug probe); load-state wait; iframe location (empty means continue);
checkbox wait (none means continue); click sub-retries (all failing means
continue); debug probe; verification (the turnstile and interstitial
branches both re-run challenge detection); expected-content re-check;
success (after one more debug probe) or continue. -/
def attemptBody (env : CfEnv) (ct : String) (sel : Option String)
    (checkbox_click_attempts : Int) (s : St) : AttemptOut :=
  match probeBlock env s with
  | .error e => .raised e
  | .ok s =>
    match detectRec env s with
    | .error e => .raised e
    | .ok (cfDetected, s) =>
      match expectedRec env sel s with
      | .error e => .raised e
      | .ok (expDetected, s) =>
        if !cfDetected || expDetected then
          match probeBlock env s with
          | .error e => .raised e
          | .ok s => .solved s
        else
          let s := waitLoadRec env s
          match locRec env s with
          | (cfIfr, s) =>
            if cfIfr.isEmpty then .tryNext s
            else
              match waiterRec env s with
              | (none, s) => .tryNext s
              | (some _, s) =>
                match clickLoop env checkbox_click_attempts.toNat s with
                | (false, s) => .tryNext s
                | (true, s) =>
                  match probeBlock env s with
                  | .error e => .raised e
                  | .ok s =>
                    match
                      (if ct == "turnstile" then detectRec env s
                       else detectRec env s) with
                    | .error e => .raised e
                    | .ok (cfDet2, s) =>
                      match expectedRec env sel s with
                      | .error e => .raised e
                      | .ok (exp2, s) =>
                        if !cfDet2 || exp2 then
                          match probeBlock env s with
                          | .error e => .raised e
                          | .ok s => .solved s
                        else .tryNext s

/-- The outer `for attempt in range(solve_attempts)` loop: `idx` is the
Python loop variable (a sleep of `attempt_delay` precedes every iteration
with `idx > 0`), `remaining` the iterations left.  When the loop ends
without success the source sleeps 2 seconds and returns False. -/
def solveLoop (env : CfEnv) (ct : String) (sel : Option String)
    (checkbox_click_attempts : Int) (attempt_delay : Nat) :
    Nat → Nat → St → Except PyErr (Bool × St)
  | _, 0, s => .ok (false, sleepRec 2 s)
  | idx, remaining + 1, s =>
    let s := if 0 < idx then sleepRec attempt_delay s else s
    match attemptBody env ct sel checkbox_click_attempts s with
    | .solved s1 => .ok (true, s1)
    | .tryNext s1 =>
      solveLoop env ct sel checkbox_click_attempts attempt_delay
        (idx + 1) remaining s1
    | .raised e => .error e

/-- The full orchestrator.  `solve_click_delay` is bound but never read in
the source body, which the definition mirrors. -/
def solve_cloudflare_by_click (env : CfEnv) (q : Nat) (ct : String)
    (sel : Option String) (solve_attempts : Int) (solve_click_delay : Nat)
    (wait_checkbox_attempts : Int) (wait_checkbox_delay : Nat)
    (checkbox_click_attempts : Int) (attempt_delay : Nat) :
    Except PyErr (Bool × St) :=
  solveLoop env ct sel checkbox_click_attempts attempt_delay
    0 solve_attempts.toNat (St.init q)

/-! ## Observation helpers over orchestrator results -/

def obsResult : Except PyErr (Bool × St) → Option Bool
  | .ok (b, _) => some b
  | .error _ => none

def obsTrace : Except PyErr (Bool × St) → Option (List Ev)
  | .ok (_, s) => some s.trace
  | .error _ => none

def obsDetects : Except PyErr (Bool × St) → Option Nat
  | .ok (_, s) => some s.detects
  | .error _ => none

def obsLocs : Except PyErr (Bool × St) → Option Nat
  | .ok (_, s) => some s.locs
  | .error _ => none

def obsWaiters : Except PyErr (Bool × St) → Option Nat
  | .ok (_, s) => some s.waiters
  | .error _ => none

def obsClicks : Except PyErr (Bool × St) → Option Nat
  | .ok (_, s) => some s.clicks
  | .error _ => none

def obsSleep : Except PyErr (Bool × St) → Option Nat
  | .ok (_, s) => some s.sleepTotal
  | .error _ => none

def obsNewPages : Except PyErr (Bool × St) → Option Nat
  | .ok (_, s) => some s.newPages
  | .error _ => none

/-! ## Derived state helpers (definitions used by the proofs) -/

/-- The state after a debug probe that does not hit a closed page. -/
def probeSt (env : CfEnv) (s : St) : St :=
  if env.debugEnabled then
    { s with probes := s.probes + 1,
             trace := s.trace ++ [Ev.probe s.q .okTxt] }
  else s

/-- The expected-content answer the orchestrator observes on a detection
pass whose expected-content query is the k-th one: a falsy selector never
queries and yields `false`. -/
def expectedObs (env : CfEnv) (sel : Option String) (k : Nat) :
    Except PyErr Bool :=
  if isFalsyStr sel then .ok false else env.expected k

/-- The state update of one outer attempt in the scenario "probes fine,
challenge detected, expected content falsy, locator returns no iframes":
probe, detection, load wait, locator call, then `continue`. -/
def c5Step (env : CfEnv) (s : St) : St :=
  let t : St := probeSt env s
  let t1 : St := { t with detects := t.detects + 1,
                          trace := t.trace ++ [Ev.detectChallenge t.q] }
  let t2 : St := { t1 with waits := t1.waits + 1,
                           trace := t1.trace ++
                             [Ev.waitLoad t1.q (env.waitLoadR t1.waits)] }
  { t2 with locs := t2.locs + 1, trace := t2.trace ++ [Ev.locator t2.q] }

/-- The state update of an outer attempt that succeeds on its detection
pass (challenge absent or expected content present): probe, detection,
possibly the expected-content query, and the success-path probe. -/
def c1St (env : CfEnv) (sel : Option String) (s : St) : St :=
  let t : St := probeSt env s
  let t1 : St := { t with detects := t.detects + 1,
                          trace := t.trace ++ [Ev.detectChallenge t.q] }
  let t2 : St :=
    if isFalsyStr sel then t1
    else { t1 with expecteds := t1.expecteds + 1,
                   trace := t1.trace ++ [Ev.expectedQ t1.q] }
  probeSt env t2

/-! ## Concrete environments (counterexamples and witnesses) -/

/-- Challenge always detected, no expected content, locator always empty,
probes fine, debug logging off. -/
def envC5 : CfEnv :=
  { debugEnabled := false, innerText := fun _ => .okTxt,
    newPage := fun _ => none, detect := fun _ => .ok true,
    expected := fun _ => .ok false, waitLoadR := fun _ => .okWait,
    cfIframes := fun _ => [], waiter := fun _ => none,
    click := fun _ => false }

/-- Like `envC5`, but every `wait_for_load_state` fails with the crashed
condition. -/
def envC2 : CfEnv :=
  { envC5 with
    waitLoadR := fun _ => .crashed }

/-- Debug logging on; the first body-text probe hits a closed page, page
creation yields page 42, the challenge is never detected. -/
def envC2b : CfEnv :=
  { envC5 with
    debugEnabled := true,
    innerText := fun k => if k == 0 then .targetClosed else .okTxt,
    newPage := fun _ => some 42,
    detect := fun _ => .ok false }

/-- Like `envC2b`, but page creation fails. -/
def envC2c : CfEnv :=
  { envC2b with
    newPage := fun _ => none }

/-- Challenge never detected, probes fine. -/
def envC1 : CfEnv :=
  { envC5 with
    detect := fun _ => .ok false }

/-- Any orchestrator environment (for instantiating universally quantified
statements). -/
def envC10 : CfEnv := envC5

/-- One shadow root holding one iframe element whose `src` matches the
filter but whose `content_frame()` resolves to Python `None`. -/
def envC4 : SEnv :=
  { shadowRoots := .ok [0],
    queryRoot := fun r sel =>
      if r == 0 && sel == "iframe" then .ok (some 1) else .ok none,
    srcOf := fun e => if e == 1 then .ok "x-cfchal-y" else .error (.nonPw "m"),
    contentFrameOf := fun _ => .ok none,
    frameDetached := fun _ => false }

/-- Three shadow roots: root 1 holds a match, querying root 2 raises, root
3 also holds a match. -/
def envC8 : SEnv :=
  { shadowRoots := .ok [1, 2, 3],
    queryRoot := fun r _ =>
      if r == 1 then .ok (some 10)
      else if r == 2 then .error (.pw "boom")
      else .ok (some 30),
    srcOf := fun _ => .error (.nonPw "m"),
    contentFrameOf := fun _ => .ok none,
    frameDetached := fun _ => false }

/-- Three shadow-DOM iframe elements (one per root): element 1 matches the
filter and resolves to attached frame 11, reading the `src` of element 2
raises, element 3 would match and resolve to frame 13. -/
def envC8b : SEnv :=
  { shadowRoots := .ok [1, 2, 3],
    queryRoot := fun r _ => .ok (some r),
    srcOf := fun e =>
      if e == 1 then .ok "cfx"
      else if e == 2 then .error (.pw "src boom")
      else .ok "cfy",
    contentFrameOf := fun e =>
      if e == 1 then .ok (some 11) else .ok (some 13),
    frameDetached := fun _ => false }

/-- A waiter environment in which every round raises: the iframe is
attached and holds checkbox 5, but the visibility check (which sits
outside the inner per-iframe try/except) raises every time. -/
def envC6 : WEnv :=
  { isDetachedW := fun _ _ => .ok false,
    searchBoxes := fun _ _ => .ok [5],
    isVisibleW := fun _ _ => .error (.pw "vis") }

/-- a `safe_query` environment: the first query fails with a non-transient
Playwright error. -/
def envC7a : QEnv :=
  { waitLoadQ := fun _ => .ok (),
    querySel := fun _ => .error (.pw "boom") }

/-- a `safe_query` environment: the first query dies with the
execution-context-destroyed condition, the second succeeds. -/
def envC7b : QEnv :=
  { waitLoadQ := fun _ => .ok (),
    querySel := fun k =>
      if k == 0 then .error (.pw "zz Execution context was destroyed zz")
      else .ok (some 5) }

/-- a `safe_query` environment: every query dies with the
execution-context-destroyed condition. -/
def envC7c : QEnv :=
  { waitLoadQ := fun _ => .ok (),
    querySel := fun _ =>
      .error (.pw "zz Execution context was destroyed zz") }

/-! ## Helper lemmas -/

lemma probeBlock_eq (env : CfEnv) (s : St)
    (hp : ∀ k, env.innerText k = InnerTextR.okTxt) :
    probeBlock env s = .ok (probeSt env s) := by
  by_cases hd : env.debugEnabled <;> simp [probeBlock, probeSt, hd, hp]

@[simp] lemma probeSt_q (env : CfEnv) (s : St) : (probeSt env s).q = s.q := by
  by_cases hd : env.debugEnabled <;> simp [probeSt, hd]

@[simp] lemma probeSt_detects (env : CfEnv) (s : St) :
    (probeSt env s).detects = s.detects := by
  by_cases hd : env.debugEnabled <;> simp [probeSt, hd]

@[simp] lemma probeSt_expecteds (env : CfEnv) (s : St) :
    (probeSt env s).expecteds = s.expecteds := by
  by_cases hd : env.debugEnabled <;> simp [probeSt, hd]

@[simp] lemma probeSt_locs (env : CfEnv) (s : St) :
    (probeSt env s).locs = s.locs := by
  by_cases hd : env.debugEnabled <;> simp [probeSt, hd]

@[simp] lemma probeSt_waiters (env : CfEnv) (s : St) :
    (probeSt env s).waiters = s.waiters := by
  by_cases hd : env.debugEnabled <;> simp [probeSt, hd]

@[simp] lemma probeSt_clicks (env : CfEnv) (s : St) :
    (probeSt env s).clicks = s.clicks := by
  by_cases hd : env.debugEnabled <;> simp [probeSt, hd]

@[simp] lemma probeSt_waits (env : CfEnv) (s : St) :
    (probeSt env s).waits = s.waits := by
  by_cases hd : env.debugEnabled <;> simp [probeSt, hd]

@[simp] lemma probeSt_sleepTotal (env : CfEnv) (s : St) :
    (probeSt env s).sleepTotal = s.sleepTotal := by
  by_cases hd : env.debugEnabled <;> simp [probeSt, hd]

@[simp] lemma sleepRec_q (n : Nat) (s : St) : (sleepRec n s).q = s.q := rfl

@[simp] lemma sleepRec_detects (n : Nat) (s : St) :
    (sleepRec n s).detects = s.detects := rfl

@[simp] lemma sleepRec_expecteds (n : Nat) (s : St) :
    (sleepRec n s).expecteds = s.expecteds := rfl

@[simp] lemma sleepRec_locs (n : Nat) (s : St) :
    (sleepRec n s).locs = s.locs := rfl

@[simp] lemma sleepRec_waiters (n : Nat) (s : St) :
    (sleepRec n s).waiters = s.waiters := rfl

@[simp] lemma sleepRec_clicks (n : Nat) (s : St) :
    (sleepRec n s).clicks = s.clicks := rfl

@[simp] lemma sleepRec_probes (n : Nat) (s : St) :
    (sleepRec n s).probes = s.probes := rfl

@[simp] lemma sleepRec_sleepTotal (n : Nat) (s : St) :
    (sleepRec n s).sleepTotal = s.sleepTotal + n := rfl

@[simp] lemma c5Step_detects (env : CfEnv) (s : St) :
    (c5Step env s).detects = s.detects + 1 := by simp [c5Step]

@[simp] lemma c5Step_locs (env : CfEnv) (s : St) :
    (c5Step env s).locs = s.locs + 1 := by simp [c5Step]

@[simp] lemma c5Step_waiters (env : CfEnv) (s : St) :
    (c5Step env s).waiters = s.waiters := by simp [c5Step]

@[simp] lemma c5Step_clicks (env : CfEnv) (s : St) :
    (c5Step env s).clicks = s.clicks := by simp [c5Step]

@[simp] lemma c5Step_sleepTotal (env : CfEnv) (s : St) :
    (c5Step env s).sleepTotal = s.sleepTotal := by simp [c5Step]

@[simp] lemma c1St_locs (env : CfEnv) (sel : Option String) (s : St) :
    (c1St env sel s).locs = s.locs := by
  by_cases hsel : isFalsyStr sel <;> simp [c1St, hsel]

lemma solveLoop_zero (env : CfEnv) (ct : String) (sel : Option String)
    (ca : Int) (ad : Nat) (idx : Nat) (s : St) :
    solveLoop env ct sel ca ad idx 0 s = .ok (false, sleepRec 2 s) := rfl

lemma solveLoop_succ (env : CfEnv) (ct : String) (sel : Option String)
    (ca : Int) (ad : Nat) (idx r : Nat) (s : St) :
    solveLoop env ct sel ca ad idx (r + 1) s =
      (match attemptBody env ct sel ca
          (if 0 < idx then sleepRec ad s else s) with
       | .solved s1 => .ok (true, s1)
       | .tryNext s1 => solveLoop env ct sel ca ad (idx + 1) r s1
       | .raised e => .error e) := rfl

lemma grcLoop_zero (env : WEnv) (ifr : List Nat) (r : Nat) :
    grcLoop env ifr 0 r = (none, 0) := rfl

lemma grcLoop_succ (env : WEnv) (ifr : List Nat) (k r : Nat) :
    grcLoop env ifr (k + 1) r =
      (match grcRound env ifr r with
       | .ok (some p) => (some p, 1)
       | _ =>
         match grcLoop env ifr k (r + 1) with
         | (res, c) => (res, c + 1)) := rfl

lemma sqGo_zero (env : QEnv) (delay k : Nat) :
    sqGo env delay 0 k = (.ok none, []) := rfl

lemma sqGo_succ (env : QEnv) (delay r k : Nat) :
    sqGo env delay (r + 1) k =
      (match sqAttempt env k with
       | (.ok v, evs) => (.ok v, evs)
       | (.error e, evs) =>
         if isEcdErr e && decide (1 ≤ r) then
           match sqGo env delay r (k + 1) with
           | (res, evs2) => (res, evs ++ [.sleepE delay] ++ evs2)
         else (.error e, evs)) := rfl

lemma grcLoop_one_rounds (env : WEnv) (ifr : List Nat) (r : Nat) :
    (grcLoop env ifr 1 r).2 = 1 := by
  rw [show (1 : Nat) = 0 + 1 from rfl, grcLoop_succ]
  rcases h : grcRound env ifr r with e | o
  · simp [grcLoop_zero]
  · rcases o with _ | p <;> simp [grcLoop_zero]

lemma grcLoop_none (env : WEnv) (ifr : List Nat)
    (h : ∀ r p, grcRound env ifr r ≠ .ok (some p)) :
    ∀ k r, (grcLoop env ifr k r).1 = none := by
  intro k
  induction k with
  | zero => intro r; simp [grcLoop_zero]
  | succ k ih =>
    intro r
    rw [grcLoop_succ]
    rcases hr : grcRound env ifr r with e | o
    · simpa using ih (r + 1)
    · rcases o with _ | p
      · simpa using ih (r + 1)
      · exact absurd hr (h r p)

/-- C9: the behaviour of `solve_cloudflare_by_click` — the boolean result
and the full sequence of operations issued against the queryable (the
trace) — is identical for any two values of `solve_click_delay`, because
the parameter is never read after binding: no post-click delay is ever
applied. -/
theorem c9_solve_click_delay_never_read (env : CfEnv) (q : Nat) (ct : String)
    (sel : Option String) (n : Int) (d1 d2 : Nat) (wa : Int) (wd : Nat)
    (ca : Int) (ad : Nat) :
    solve_cloudflare_by_click env q ct sel n d1 wa wd ca ad =
      solve_cloudflare_by_click env q ct sel n d2 wa wd ca ad := rfl

/-- C10: for every `solve_attempts ≤ 0` the orchestrator returns `false`
without executing the outer loop body at all — no detection pass, no
locator call, no waiter call, no click; the only effect is the final
2-second drain sleep — whereas the waiter normalizes a non-positive
`attempts` to one round (so its budget is normalized and the
orchestrator's is not). -/
theorem c10_nonpositive_attempts :
    (∀ (env : CfEnv) (q : Nat) (ct : String) (sel : Option String)
       (n : Int) (d : Nat) (wa : Int) (wd : Nat) (ca : Int) (ad : Nat),
       n ≤ 0 →
       solve_cloudflare_by_click env q ct sel n d wa wd ca ad =
         .ok (false, sleepRec 2 (St.init q)) ∧
       (sleepRec 2 (St.init q)).detects = 0 ∧
       (sleepRec 2 (St.init q)).locs = 0 ∧
       (sleepRec 2 (St.init q)).waiters = 0 ∧
       (sleepRec 2 (St.init q)).clicks = 0) ∧
    (∀ (envW : WEnv) (ifr : List Nat) (d : Nat) (a : Int), a ≤ 0 →
       (get_ready_checkbox envW ifr d a).2 = 1 ∧ normAttempts a = 1) := by
  constructor
  · intro env q ct sel n d wa wd ca ad hn
    refine ⟨?_, rfl, rfl, rfl, rfl⟩
    unfold solve_cloudflare_by_click
    rw [Int.toNat_of_nonpos hn, solveLoop_zero]
  · intro envW ifr d a ha
    have hnorm : normAttempts a = 1 := by simp [normAttempts, ha]
    exact ⟨by simp [get_ready_checkbox, hnorm, grcLoop_one_rounds], hnorm⟩

/-- C10 witness: at `solve_attempts = -1` the orchestrator returns `false`
having performed nothing but the drain sleep, and the waiter normalizes
`attempts = 0` to one round. -/
theorem c10_nonpositive_attempts_witness :
    (solve_cloudflare_by_click envC10 0 "interstitial" none (-1) 6 10 6 3 5 =
       .ok (false, sleepRec 2 (St.init 0)) ∧
     (sleepRec 2 (St.init 0)).detects = 0 ∧
     (sleepRec 2 (St.init 0)).locs = 0 ∧
     (sleepRec 2 (St.init 0)).waiters = 0 ∧
     (sleepRec 2 (St.init 0)).clicks = 0) ∧
    ((get_ready_checkbox envC6 [0] 6 0).2 = 1 ∧ normAttempts 0 = 1) :=
  ⟨c10_nonpositive_attempts.1 envC10 0 "interstitial" none (-1) 6 10 6 3 5
     (by decide),
   c10_nonpositive_attempts.2 envC6 [0] 6 0 (by decide)⟩

/-- C3 counterexample: the empty string is a challenge-type value outside
the set of supported values, yet `solve_captcha` does not reject it — the
falsiness normalization silently turns it into `"interstitial"` and the
call is dispatched to the solver. -/
theorem c3_counterexample_empty_not_rejected :
    (("" : String) ≠ "interstitial" ∧ ("" : String) ≠ "turnstile") ∧
    solve_captcha "cloudflare" "" none = .ok "interstitial" := by
  refine ⟨⟨by decide, by decide⟩, rfl⟩

/-- C3 amended: every non-empty (truthy) challenge-type value outside the
supported set is rejected with a `ValueError` before the solver — and
hence before any detection, location or click step — is ever invoked;
a falsy value (empty string / None) is instead normalized to
`"interstitial"` and accepted. -/
theorem c3_amended_truthy_invalid_rejected (ct : String) (m : Option String)
    (h0 : ct ≠ "") (h1 : ct ≠ "interstitial") (h2 : ct ≠ "turnstile") :
    solve_captcha "cloudflare" ct m = .error (.badChallengeType ct) := by
  have he : ct.isEmpty = false := by
    rcases h : ct.isEmpty with _ | _
    · rfl
    · exact absurd ((String.isEmpty_iff ct).mp h) h0
  have hb1 : (ct != "turnstile") = true := bne_iff_ne.mpr h2
  have hb2 : (ct != "interstitial") = true := bne_iff_ne.mpr h1
  simp [solve_captcha, he, hb1, hb2]

/-- C3 amended witness at the concrete invalid value "foo". -/
theorem c3_amended_truthy_invalid_rejected_witness :
    solve_captcha "cloudflare" "foo" (some "click") =
      .error (.badChallengeType "foo") :=
  c3_amended_truthy_invalid_rejected "foo" (some "click")
    (by decide) (by decide) (by decide)

/-- C4: evaluating `search_shadow_root_iframes` at the failing input — a
shadow-DOM iframe element whose `src` matches the filter but whose
`content_frame()` resolves to Python `None` — shows the `None` value is
appended to the returned list: the guard `cf_iframe and
cf_iframe.is_detached()` skips detached frames but lets `None` through. -/
theorem c4_none_in_locator_result :
    search_shadow_root_iframes envC4 "cfchal" = [none] ∧
    (none : Option Nat) ∈ search_shadow_root_iframes envC4 "cfchal" := by
  refine ⟨by decide, by decide⟩

/-- C2 counterexample: with a challenge detected and every
`wait_for_load_state` failing with the crashed condition, the orchestrator
merely logs the crash: the very next operation (the locator call) is
issued against the same stale queryable 7 and `new_page` is never invoked
— refuting the claim that every target-crashed failure leads to a
replacement page being substituted. -/
theorem c2_counterexample_stale_handle_reused :
    obsTrace (solve_cloudflare_by_click envC2 7 "interstitial" none 1 6 10 6 3 5) =
      some [Ev.detectChallenge 7, Ev.waitLoad 7 .crashed, Ev.locator 7,
            Ev.sleep 2] ∧
    obsNewPages
        (solve_cloudflare_by_click envC2 7 "interstitial" none 1 6 10 6 3 5) =
      some 0 := by
  refine ⟨by decide, by decide⟩

/-- C5 counterexample: in the scenario "indicator present on every attempt
and locator always empty" with `solveAttempts = 2` and
`attemptDelaySeconds = 5`, the function does return `false` after exactly 2
detection passes with no waiter and no click call, but the total sleep is
7 seconds — the inter-attempt 5 seconds plus the final 2-second drain
sleep — not the claimed `(solveAttempts - 1) × attemptDelaySeconds = 5`. -/
theorem c5_counterexample_drain_sleep :
    obsResult (solve_cloudflare_by_click envC5 0 "interstitial" none 2 6 10 6 3 5) =
      some false ∧
    obsDetects (solve_cloudflare_by_click envC5 0 "interstitial" none 2 6 10 6 3 5) =
      some 2 ∧
    obsWaiters (solve_cloudflare_by_click envC5 0 "interstitial" none 2 6 10 6 3 5) =
      some 0 ∧
    obsClicks (solve_cloudflare_by_click envC5 0 "interstitial" none 2 6 10 6 3 5) =
      some 0 ∧
    obsSleep (solve_cloudflare_by_click envC5 0 "interstitial" none 2 6 10 6 3 5) =
      some 7 ∧
    (7 : Nat) ≠ (2 - 1) * 5 := by
  refine ⟨by decide, by decide, by decide, by decide, by decide, by decide⟩

/-- C8 counterexample: with three shadow roots of which root 1 matches,
querying root 2 raises, and root 3 also matches, the scan returns only the
match collected before the failure — the match of root 3 is lost, so an
exception does not skip just the failing branch. -/
theorem c8_counterexample_later_branches_lost :
    search_shadow_root_elements envC8 "x" = [10] ∧
    envC8.queryRoot 3 "x" = .ok (some 30) ∧
    (30 : Nat) ∉ search_shadow_root_elements envC8 "x" := by
  refine ⟨by decide, rfl, by decide⟩

lemma attemptBody_c5 (env : CfEnv) (ct : String) (sel : Option String)
    (ca : Int) (s : St)
    (hp : ∀ k, env.innerText k = InnerTextR.okTxt)
    (hdet : ∀ k, env.detect k = .ok true)
    (hsel : isFalsyStr sel = true)
    (hifr : ∀ k, env.cfIframes k = []) :
    attemptBody env ct sel ca s = .tryNext (c5Step env s) := by
  have hpb : ∀ t, probeBlock env t = .ok (probeSt env t) :=
    fun t => probeBlock_eq env t hp
  simp [attemptBody, hpb, detectRec, hdet, expectedRec, hsel, waitLoadRec,
        locRec, hifr, c5Step]

lemma solveLoop_c5 (env : CfEnv) (ct : String) (sel : Option String)
    (ca : Int) (ad : Nat)
    (hp : ∀ k, env.innerText k = InnerTextR.okTxt)
    (hdet : ∀ k, env.detect k = .ok true)
    (hsel : isFalsyStr sel = true)
    (hifr : ∀ k, env.cfIframes k = []) :
    ∀ (r idx : Nat) (s : St), 1 ≤ idx →
      ∃ s1, solveLoop env ct sel ca ad idx r s = .ok (false, s1) ∧
        s1.detects = s.detects + r ∧ s1.waiters = s.waiters ∧
        s1.clicks = s.clicks ∧
        s1.sleepTotal = s.sleepTotal + r * ad + 2 := by
  intro r
  induction r with
  | zero =>
    intro idx s _
    exact ⟨sleepRec 2 s, solveLoop_zero env ct sel ca ad idx s,
           by simp, by simp, by simp, by simp⟩
  | succ r ih =>
    intro idx s hidx
    have hstep : solveLoop env ct sel ca ad idx (r + 1) s =
        solveLoop env ct sel ca ad (idx + 1) r (c5Step env (sleepRec ad s)) := by
      rw [solveLoop_succ, if_pos (by omega : 0 < idx),
          attemptBody_c5 env ct sel ca (sleepRec ad s) hp hdet hsel hifr]
    obtain ⟨s1, h1, h2, h3, h4, h5⟩ :=
      ih (idx + 1) (c5Step env (sleepRec ad s)) (by omega)
    refine ⟨s1, by rw [hstep]; exact h1, ?_, ?_, ?_, ?_⟩
    · simp at h2; omega
    · simpa using h3
    · simpa using h4
    · simp at h5; rw [h5]; ring

/-- C5 amended: in the scenario "challenge detected on every attempt,
locator always returns an empty iframe list, no expected-content selector"
the orchestrator returns `false` after exactly `solveAttempts` detection
passes and never calls the waiter or the click; the total time it sleeps is
`(solveAttempts - 1) × attemptDelaySeconds` between attempts **plus the
final 2-second drain sleep** that the source performs before returning
`false`. -/
theorem c5_amended_exhaustion_with_drain_sleep (env : CfEnv) (q : Nat)
    (ct : String) (sel : Option String) (n : Int) (d : Nat) (wa : Int)
    (wd : Nat) (ca : Int) (ad : Nat)
    (hp : ∀ k, env.innerText k = InnerTextR.okTxt)
    (hdet : ∀ k, env.detect k = .ok true)
    (hsel : isFalsyStr sel = true)
    (hifr : ∀ k, env.cfIframes k = [])
    (hn : 1 ≤ n) :
    ∃ s1, solve_cloudflare_by_click env q ct sel n d wa wd ca ad =
        .ok (false, s1) ∧
      s1.detects = n.toNat ∧ s1.waiters = 0 ∧ s1.clicks = 0 ∧
      s1.sleepTotal = (n.toNat - 1) * ad + 2 := by
  obtain ⟨m, hm⟩ : ∃ m, n.toNat = m + 1 := ⟨n.toNat - 1, by omega⟩
  have hstep : solveLoop env ct sel ca ad 0 (m + 1) (St.init q) =
      solveLoop env ct sel ca ad 1 m (c5Step env (St.init q)) := by
    rw [solveLoop_succ, if_neg (by omega : ¬ (0 : Nat) < 0),
        attemptBody_c5 env ct sel ca (St.init q) hp hdet hsel hifr]
  obtain ⟨s1, h1, h2, h3, h4, h5⟩ :=
    solveLoop_c5 env ct sel ca ad hp hdet hsel hifr m 1
      (c5Step env (St.init q)) (le_refl 1)
  have hm1 : n.toNat - 1 = m := by omega
  refine ⟨s1, ?_, ?_, ?_, ?_, ?_⟩
  · unfold solve_cloudflare_by_click
    rw [hm, hstep]; exact h1
  · simp [St.init] at h2; omega
  · simpa [St.init] using h3
  · simpa [St.init] using h4
  · simp [St.init] at h5; rw [h5, hm1]
/-- C5 amended witness: concrete run with 2 attempts and a 5-second delay;
total sleep is `(2 - 1) * 5 + 2 = 7`. -/
theorem c5_amended_exhaustion_with_drain_sleep_witness :
    ∃ s1, solve_cloudflare_by_click envC5 0 "interstitial" none 2 6 10 6 3 5 =
        .ok (false, s1) ∧
      s1.detects = 2 ∧ s1.waiters = 0 ∧ s1.clicks = 0 ∧
      s1.sleepTotal = (2 - 1) * 5 + 2 :=
  c5_amended_exhaustion_with_drain_sleep envC5 0 "interstitial" none 2 6 10
    6 3 5 (fun _ => rfl) (fun _ => rfl) rfl (fun _ => rfl) (by decide)

lemma attemptBody_c1 (env : CfEnv) (ct : String) (sel : Option String)
    (ca : Int) (s : St) (b c : Bool)
    (hp : ∀ k, env.innerText k = InnerTextR.okTxt)
    (hdet : env.detect s.detects = .ok b)
    (hexp : expectedObs env sel s.expecteds = .ok c)
    (hbc : b = false ∨ c = true) :
    attemptBody env ct sel ca s = .solved (c1St env sel s) := by
  have hpb : ∀ t, probeBlock env t = .ok (probeSt env t) :=
    fun t => probeBlock_eq env t hp
  have hcond : (!b || c) = true := by
    rcases hbc with h | h <;> simp [h]
  by_cases hsel : isFalsyStr sel = true
  · have hc : c = false := by
      have h0 := hexp
      simp [expectedObs, hsel] at h0
      exact h0
    have hb : b = false := by
      rcases hbc with h | h
      · exact h
      · rw [hc] at h; exact absurd h (by decide)
    subst hb
    simp [attemptBody, hpb, detectRec, hdet, expectedRec, hsel, c1St]
  · have hsel' : isFalsyStr sel = false := by
      simpa using hsel
    have hexp' : env.expected s.expecteds = .ok c := by
      simpa [expectedObs, hsel'] using hexp
    simp [attemptBody, hpb, detectRec, hdet, expectedRec, hsel', hexp',
          hcond, c1St]

/-- C1: on any outer attempt whose detection pass reports the challenge
absent, or whose expected-content check reports the expected selector
present (expected content wins even when the challenge indicator also
matched), the orchestrator returns `true` immediately, with the locator
(and the waiter and click) never invoked on that pass; in particular, a
call in which the first detection pass finds no indicator and no
expected-content selector is configured returns `true` with zero locator
calls. -/
theorem c1_immediate_success_skips_locator :
    (∀ (env : CfEnv) (ct : String) (sel : Option String) (ca : Int)
       (ad : Nat) (idx r : Nat) (s : St) (b c : Bool),
       (∀ k, env.innerText k = InnerTextR.okTxt) →
       env.detect s.detects = .ok b →
       expectedObs env sel s.expecteds = .ok c →
       (b = false ∨ c = true) →
       solveLoop env ct sel ca ad idx (r + 1) s =
         .ok (true, c1St env sel (if 0 < idx then sleepRec ad s else s)) ∧
       (c1St env sel (if 0 < idx then sleepRec ad s else s)).locs = s.locs) ∧
    (∀ (env : CfEnv) (q : Nat) (ct : String) (n : Int) (d : Nat) (wa : Int)
       (wd : Nat) (ca : Int) (ad : Nat),
       (∀ k, env.innerText k = InnerTextR.okTxt) →
       env.detect 0 = .ok false →
       1 ≤ n →
       obsResult (solve_cloudflare_by_click env q ct none n d wa wd ca ad) =
         some true ∧
       obsLocs (solve_cloudflare_by_click env q ct none n d wa wd ca ad) =
         some 0) := by
  constructor
  · intro env ct sel ca ad idx r s b c hp hdet hexp hbc
    constructor
    · rw [solveLoop_succ]
      by_cases hidx : 0 < idx
      · rw [if_pos hidx,
            attemptBody_c1 env ct sel ca (sleepRec ad s) b c hp
              (by simpa using hdet) (by simpa using hexp) hbc]
      · rw [if_neg hidx,
            attemptBody_c1 env ct sel ca s b c hp hdet hexp hbc]
    · by_cases hidx : 0 < idx <;> simp [hidx]
  · intro env q ct n d wa wd ca ad hp hdet hn
    obtain ⟨m, hm⟩ : ∃ m, n.toNat = m + 1 := ⟨n.toNat - 1, by omega⟩
    have hrun : solve_cloudflare_by_click env q ct none n d wa wd ca ad =
        .ok (true, c1St env none (St.init q)) := by
      unfold solve_cloudflare_by_click
      rw [hm, solveLoop_succ, if_neg (by omega : ¬ (0 : Nat) < 0),
          attemptBody_c1 env ct none ca (St.init q) false false hp
            (by simpa [St.init] using hdet) rfl (Or.inl rfl)]
    rw [hrun]
    exact ⟨rfl, by simp [obsLocs, St.init]⟩

/-- C1 witness: concrete run where the first detection pass reports no
challenge and no expected-content selector is configured — the result is
`true` with zero locator calls. -/
theorem c1_immediate_success_skips_locator_witness :
    obsResult (solve_cloudflare_by_click envC1 3 "interstitial" none 1 6 10 6 3 5) =
      some true ∧
    obsLocs (solve_cloudflare_by_click envC1 3 "interstitial" none 1 6 10 6 3 5) =
      some 0 :=
  c1_immediate_success_skips_locator.2 envC1 3 "interstitial" 1 6 10 6 3 5
    (fun _ => rfl) rfl (by decide)

/-- C2 amended: page replacement happens exactly at the debug body-text
probes, on `TargetClosedError`.  When such a probe hits a closed page and
`new_page` succeeds, the fresh page is substituted as the active queryable
and every remaining step of the attempt targets it (here: the detection
pass and the success-path probe both target the replacement `q1`); when
`new_page` fails, that failure propagates to the caller as an exception.
A crash surfacing in `wait_for_load_state`, by contrast, is only logged
and the stale handle stays active (see the counterexample). -/
theorem c2_amended_probe_crash_replacement :
    (∀ (env : CfEnv) (q q1 : Nat) (ct : String) (n : Int) (d : Nat)
       (wa : Int) (wd : Nat) (ca : Int) (ad : Nat),
       env.debugEnabled = true →
       env.innerText 0 = .targetClosed →
       env.newPage 0 = some q1 →
       env.innerText 1 = .okTxt →
       env.detect 0 = .ok false →
       1 ≤ n →
       solve_cloudflare_by_click env q ct none n d wa wd ca ad =
         .ok (true,
           { q := q1, probes := 2, newPages := 1, detects := 1,
             expecteds := 0, waits := 0, locs := 0, waiters := 0,
             clicks := 0, sleepTotal := 0,
             trace := [Ev.probe q .targetClosed, Ev.newPage (some q1),
                       Ev.detectChallenge q1, Ev.probe q1 .okTxt] })) ∧
    (∀ (env : CfEnv) (q : Nat) (ct : String) (sel : Option String)
       (n : Int) (d : Nat) (wa : Int) (wd : Nat) (ca : Int) (ad : Nat),
       env.debugEnabled = true →
       env.innerText 0 = .targetClosed →
       env.newPage 0 = none →
       1 ≤ n →
       solve_cloudflare_by_click env q ct sel n d wa wd ca ad =
         .error .pageCreate) := by
  constructor
  · intro env q q1 ct n d wa wd ca ad hdbg h0 hnp h1 hdet hn
    obtain ⟨m, hm⟩ : ∃ m, n.toNat = m + 1 := ⟨n.toNat - 1, by omega⟩
    unfold solve_cloudflare_by_click
    rw [hm, solveLoop_succ, if_neg (by omega : ¬ (0 : Nat) < 0)]
    simp [attemptBody, probeBlock, St.init, hdbg, h0, hnp, h1, detectRec,
          hdet, expectedRec, isFalsyStr]
  · intro env q ct sel n d wa wd ca ad hdbg h0 hnp hn
    obtain ⟨m, hm⟩ : ∃ m, n.toNat = m + 1 := ⟨n.toNat - 1, by omega⟩
    unfold solve_cloudflare_by_click
    rw [hm, solveLoop_succ, if_neg (by omega : ¬ (0 : Nat) < 0)]
    simp [attemptBody, probeBlock, St.init, hdbg, h0, hnp]

/-- C2 amended witness: concrete crash at the first probe with successful
replacement (page 42), and concrete crash with failing page creation. -/
theorem c2_amended_probe_crash_replacement_witness :
    solve_cloudflare_by_click envC2b 7 "interstitial" none 1 6 10 6 3 5 =
      .ok (true,
        { q := 42, probes := 2, newPages := 1, detects := 1,
          expecteds := 0, waits := 0, locs := 0, waiters := 0,
          clicks := 0, sleepTotal := 0,
          trace := [Ev.probe 7 .targetClosed, Ev.newPage (some 42),
                    Ev.detectChallenge 42, Ev.probe 42 .okTxt] }) ∧
    solve_cloudflare_by_click envC2c 7 "interstitial" none 1 6 10 6 3 5 =
      .error .pageCreate :=
  ⟨c2_amended_probe_crash_replacement.1 envC2b 7 42 "interstitial" 1 6 10 6
     3 5 rfl rfl rfl rfl rfl (by decide),
   c2_amended_probe_crash_replacement.2 envC2c 7 "interstitial" none 1 6 10
     6 3 5 rfl rfl rfl (by decide)⟩

/-- C6: the waiter cannot raise (its embedding is a total function into an
option paired with the round count, mirroring the catch-all round
try/except of the source); a non-positive `maxAttempts` is normalized to
exactly one round; a round that raises is handled exactly like a round
that found nothing (the loop just moves on); and when no round ever finds
a visible checkbox — whether because it raised or because nothing visible
was found — the result is `none` rather than an error. -/
theorem c6_waiter_never_raises :
    (∀ (env : WEnv) (ifr : List Nat) (d : Nat) (a : Int), a ≤ 0 →
       (get_ready_checkbox env ifr d a).2 = 1) ∧
    (∀ (env : WEnv) (ifr : List Nat) (k r : Nat) (e : PyErr),
       grcRound env ifr r = .error e →
       grcLoop env ifr (k + 1) r =
         ((grcLoop env ifr k (r + 1)).1, (grcLoop env ifr k (r + 1)).2 + 1)) ∧
    (∀ (env : WEnv) (ifr : List Nat) (d : Nat) (a : Int),
       (∀ r p, grcRound env ifr r ≠ .ok (some p)) →
       (get_ready_checkbox env ifr d a).1 = none) := by
  refine ⟨?_, ?_, ?_⟩
  · intro env ifr d a ha
    simp [get_ready_checkbox, normAttempts, ha, grcLoop_one_rounds]
  · intro env ifr k r e he
    rw [grcLoop_succ, he]
  · intro env ifr d a h
    simp [get_ready_checkbox, grcLoop_none env ifr h]

/-- C6 witness: with an environment whose every round raises in the
visibility check, `attempts = -2` runs one round, an erroring round steps
like an empty round, and four rounds of errors end in `none`. -/
theorem c6_waiter_never_raises_witness :
    (get_ready_checkbox envC6 [0] 6 (-2)).2 = 1 ∧
    grcLoop envC6 [0] 2 0 =
      ((grcLoop envC6 [0] 1 1).1, (grcLoop envC6 [0] 1 1).2 + 1) ∧
    (get_ready_checkbox envC6 [0] 6 4).1 = none :=
  ⟨c6_waiter_never_raises.1 envC6 [0] 6 (-2) (by decide),
   c6_waiter_never_raises.2.1 envC6 [0] 1 0 (.pw "vis") rfl,
   c6_waiter_never_raises.2.2 envC6 [0] 6 4
     (fun r p h => by
       rw [show grcRound envC6 [0] r = Except.error (PyErr.pw "vis") from
             rfl] at h
       exact Except.noConfusion h)⟩

/-- C7: with the default budget (3 attempts, 2-second backoff), a query
failing with any error other than the execution-context-destroyed
condition propagates immediately — one load-state wait, one query, no
sleep and no retry; a query dying with that condition is retried after a
2-second sleep with `wait_for_load_state` re-issued before the re-query;
and when the condition persists through all 3 attempts the third error is
raised, after exactly three wait/query pairs separated by two 2-second
sleeps. -/
theorem c7_safe_query_retry_discipline :
    (∀ (env : QEnv) (e : PyErr),
       env.waitLoadQ 0 = .ok () → env.querySel 0 = .error e →
       isEcdErr e = false →
       safe_query env 3 2 = (.error e, [SqEv.waitL, SqEv.query])) ∧
    (∀ (env : QEnv) (e : PyErr) (v : Option Nat),
       env.waitLoadQ 0 = .ok () → env.querySel 0 = .error e →
       isEcdErr e = true →
       env.waitLoadQ 1 = .ok () → env.querySel 1 = .ok v →
       safe_query env 3 2 =
         (.ok v, [SqEv.waitL, SqEv.query, SqEv.sleepE 2, SqEv.waitL,
                  SqEv.query])) ∧
    (∀ (env : QEnv) (e0 e1 e2 : PyErr),
       (∀ k, env.waitLoadQ k = .ok ()) →
       env.querySel 0 = .error e0 → env.querySel 1 = .error e1 →
       env.querySel 2 = .error e2 →
       isEcdErr e0 = true → isEcdErr e1 = true → isEcdErr e2 = true →
       safe_query env 3 2 =
         (.error e2, [SqEv.waitL, SqEv.query, SqEv.sleepE 2, SqEv.waitL,
                      SqEv.query, SqEv.sleepE 2, SqEv.waitL, SqEv.query])) := by
  refine ⟨?_, ?_, ?_⟩
  · intro env e hw hq he
    have ha : sqAttempt env 0 = (.error e, [SqEv.waitL, SqEv.query]) := by
      simp [sqAttempt, hw, hq]
    unfold safe_query
    rw [show (3 : Nat) = 2 + 1 from rfl, sqGo_succ, ha]
    simp [he]
  · intro env e v hw0 hq0 he hw1 hq1
    have ha0 : sqAttempt env 0 = (.error e, [SqEv.waitL, SqEv.query]) := by
      simp [sqAttempt, hw0, hq0]
    have hb : sqGo env 2 2 1 = (.ok v, [SqEv.waitL, SqEv.query]) := by
      rw [show (2 : Nat) = 1 + 1 from rfl, sqGo_succ]
      simp [sqAttempt, hw1, hq1]
    unfold safe_query
    rw [show (3 : Nat) = 2 + 1 from rfl, sqGo_succ, ha0]
    simp [he, hb]
  · intro env e0 e1 e2 hw hq0 hq1 hq2 he0 he1 he2
    have hs2 : sqGo env 2 1 2 = (.error e2, [SqEv.waitL, SqEv.query]) := by
      rw [show (1 : Nat) = 0 + 1 from rfl, sqGo_succ]
      simp [sqAttempt, hw 2, hq2]
    have hs1 : sqGo env 2 2 1 =
        (.error e2, [SqEv.waitL, SqEv.query, SqEv.sleepE 2, SqEv.waitL,
                     SqEv.query]) := by
      rw [show (2 : Nat) = 1 + 1 from rfl, sqGo_succ]
      simp [sqAttempt, hw 1, hq1, he1, hs2]
    unfold safe_query
    rw [show (3 : Nat) = 2 + 1 from rfl, sqGo_succ]
    simp [sqAttempt, hw 0, hq0, he0, hs1]

/-- C7 witness: a non-transient error propagates untouched; an
execution-context-destroyed error is retried after a sleep and succeeds;
three such errors in a row exhaust the budget and raise the last one. -/
theorem c7_safe_query_retry_discipline_witness :
    safe_query envC7a 3 2 =
      (.error (.pw "boom"), [SqEv.waitL, SqEv.query]) ∧
    safe_query envC7b 3 2 =
      (.ok (some 5), [SqEv.waitL, SqEv.query, SqEv.sleepE 2, SqEv.waitL,
                      SqEv.query]) ∧
    safe_query envC7c 3 2 =
      (.error (.pw "zz Execution context was destroyed zz"),
       [SqEv.waitL, SqEv.query, SqEv.sleepE 2, SqEv.waitL, SqEv.query,
        SqEv.sleepE 2, SqEv.waitL, SqEv.query]) :=
  ⟨c7_safe_query_retry_discipline.1 envC7a (.pw "boom") rfl rfl (by decide),
   c7_safe_query_retry_discipline.2.1 envC7b
     (.pw "zz Execution context was destroyed zz") (some 5) rfl rfl
     (by decide) rfl rfl,
   c7_safe_query_retry_discipline.2.2 envC7c
     (.pw "zz Execution context was destroyed zz")
     (.pw "zz Execution context was destroyed zz")
     (.pw "zz Execution context was destroyed zz")
     (fun _ => rfl) rfl rfl rfl (by decide) (by decide) (by decide)⟩

lemma sseGo_cut (env : SEnv) (sel : String) (r : Nat) (rs2 : List Nat)
    (e : PyErr) (herr : env.queryRoot r sel = .error e) :
    ∀ rs1, (∀ r1 ∈ rs1, ∀ e1, env.queryRoot r1 sel ≠ .error e1) →
      ∀ acc, sseGo env sel (rs1 ++ r :: rs2) acc = sseGo env sel rs1 acc := by
  intro rs1
  induction rs1 with
  | nil =>
    intro _ acc
    simp [sseGo, herr]
  | cons a as ih =>
    intro hok acc
    have has : ∀ r1 ∈ as, ∀ e1, env.queryRoot r1 sel ≠ .error e1 :=
      fun r1 h1 => hok r1 (List.mem_cons_of_mem a h1)
    rcases hq : env.queryRoot a sel with e1 | o
    · exact absurd hq (hok a (List.mem_cons_self a as) e1)
    · rcases o with _ | x
      · simpa [sseGo, hq] using ih has acc
      · simpa [sseGo, hq] using ih has (acc ++ [x])


lemma ssiGo_cut (env : SEnv) (filter : String) (e : Nat) (es2 : List Nat)
    (herr : (∃ err, env.srcOf e = .error err) ∨
      (∃ src err, env.srcOf e = .ok src ∧ strContains src filter = true ∧
         env.contentFrameOf e = .error err)) :
    ∀ es1,
      (∀ e1 ∈ es1, (∀ err, env.srcOf e1 ≠ .error err) ∧
        (∀ src, env.srcOf e1 = .ok src → strContains src filter = true →
          ∀ err, env.contentFrameOf e1 ≠ .error err)) →
      ∀ acc, ssiGo env filter (es1 ++ e :: es2) acc =
        ssiGo env filter es1 acc := by
  intro es1
  induction es1 with
  | nil =>
    intro _ acc
    rcases herr with ⟨err, h⟩ | ⟨src, err, hsrc, hm, hcf⟩
    · simp [ssiGo, h]
    · simp [ssiGo, hsrc, hm, hcf]
  | cons a as ih =>
    intro hok acc
    obtain ⟨hsrcok, hcfok⟩ := hok a (List.mem_cons_self a as)
    have has : ∀ e1 ∈ as, (∀ err, env.srcOf e1 ≠ .error err) ∧
        (∀ src, env.srcOf e1 = .ok src → strContains src filter = true →
          ∀ err, env.contentFrameOf e1 ≠ .error err) :=
      fun e1 h1 => hok e1 (List.mem_cons_of_mem a h1)
    rcases hq : env.srcOf a with err | src
    · exact absurd hq (hsrcok err)
    · by_cases hm : strContains src filter = true
      · rcases hcf : env.contentFrameOf a with err | cf
        · exact absurd hcf (hcfok src hq hm err)
        · rcases cf with _ | f
          · simpa [ssiGo, hq, hm, hcf] using ih has (acc ++ [none])
          · by_cases hd : env.frameDetached f
            · simpa [ssiGo, hq, hm, hcf, hd] using ih has acc
            · simpa [ssiGo, hq, hm, hcf, hd] using ih has (acc ++ [some f])
      · have hm' : strContains src filter = false := by simpa using hm
        simpa [ssiGo, hq, hm'] using ih has acc

/-- C8 amended: neither scan can raise (the embeddings are total, as the
source catches every exception at the top of each scan), but an exception
while traversing one shadow root — or, in the iframe search, while
processing one iframe element (a raising `src` read, or a raising
`content_frame()` on a filter match) — ends the whole loop early: the
results collected from the branches *before* the failing one are returned,
while the failing branch and every later branch are abandoned — not just
the failing branch. -/
theorem c8_amended_exception_ends_scan :
    (∀ (env : SEnv) (sel : String) (rs1 : List Nat) (r : Nat)
       (rs2 : List Nat) (e : PyErr),
       env.shadowRoots = .ok (rs1 ++ r :: rs2) →
       (∀ r1 ∈ rs1, ∀ e1, env.queryRoot r1 sel ≠ .error e1) →
       env.queryRoot r sel = .error e →
       search_shadow_root_elements env sel = sseGo env sel rs1 []) ∧
    (∀ (env : SEnv) (filter : String) (es1 : List Nat) (e : Nat)
       (es2 : List Nat),
       search_shadow_root_elements env "iframe" = es1 ++ e :: es2 →
       (∀ e1 ∈ es1, (∀ err, env.srcOf e1 ≠ .error err) ∧
         (∀ src, env.srcOf e1 = .ok src → strContains src filter = true →
           ∀ err, env.contentFrameOf e1 ≠ .error err)) →
       ((∃ err, env.srcOf e = .error err) ∨
        (∃ src err, env.srcOf e = .ok src ∧ strContains src filter = true ∧
           env.contentFrameOf e = .error err)) →
       search_shadow_root_iframes env filter = ssiGo env filter es1 []) := by
  constructor
  · intro env sel rs1 r rs2 e hroots hok herr
    unfold search_shadow_root_elements
    rw [hroots]
    exact sseGo_cut env sel r rs2 e herr rs1 hok []
  · intro env filter es1 e es2 hscan hok herr
    unfold search_shadow_root_iframes
    rw [hscan]
    exact ssiGo_cut env filter e es2 herr es1 hok []

/-- C8 amended witness: in the three-root environment the element scan
equals the scan of the prefix before the failing root; in the three-iframe
environment the iframe search equals the search over the prefix before the
element whose `src` read raises. -/
theorem c8_amended_exception_ends_scan_witness :
    search_shadow_root_elements envC8 "x" = sseGo envC8 "x" [1] [] ∧
    search_shadow_root_iframes envC8b "cf" = ssiGo envC8b "cf" [1] [] :=
  ⟨c8_amended_exception_ends_scan.1 envC8 "x" [1] 2 [3] (.pw "boom") rfl
    (fun r1 h1 e1 h => by
      have hr1 : r1 = 1 := by simpa using h1
      subst hr1
      rw [show envC8.queryRoot 1 "x" = Except.ok (some 10) from rfl] at h
      exact Except.noConfusion h)
    rfl,
   c8_amended_exception_ends_scan.2 envC8b "cf" [1] 2 [3] rfl
    (fun e1 h1 => by
      have he1 : e1 = 1 := by simpa using h1
      subst he1
      refine ⟨fun err h => ?_, fun src hsrc hm err h => ?_⟩
      · rw [show envC8b.srcOf 1 = Except.ok "cfx" from rfl] at h
        exact Except.noConfusion h
      · rw [show envC8b.contentFrameOf 1 = Except.ok (some 11) from rfl] at h
        exact Except.noConfusion h)
    (Or.inl ⟨.pw "src boom", rfl⟩)⟩
